import Mathlib

/-!
Verification of the Bolna MCP voice server (`mcp-bolna-voice-server/main.py`).

The program is a thin adapter: seven MCP tools, each of which builds one URL,
issues one HTTP request through `make_bolna_request`, and returns the decoded
JSON body (or `None` on any failure).  We embed the Python code shallowly:

* Python/JSON values are the inductive `Json`; Python `None` is `Json.null`
  (this is faithful: `response.json()` decodes the JSON text `null` to the
  Python value `None`, so the two are one value in the program).
* The network is an oracle `Upstream : HttpRequest → UpstreamOutcome`
  describing what happens when a given request is issued.
* Exceptions are explicit: the body of the `try` block is `tryBody`, returning
  `Except PyExc Json`; `make_bolna_request` then models the two `except`
  clauses, re-raising (returning `Except.error`) whenever neither clause
  matches, exactly as Python would.
* Every function also returns the trace of HTTP requests it issued (`calls`)
  and the diagnostic lines it printed (`logs`).
-/

namespace Bolna

/-- A Python/JSON value.  `null` doubles as Python `None`: `json.loads "null"`
is `None`, so the decoded body of an upstream response and the sentinel used
by `make_bolna_request` for failure live in one value space, as in Python.
Numbers are exact rationals (JSON numbers are decimal literals; the program
does no arithmetic on them). -/
inductive Json where
  | null : Json
  | bool : Bool → Json
  | num : Rat → Json
  | str : String → Json
  | arr : List Json → Json
  | obj : List (String × Json) → Json

/-- Python's `x is None` test. -/
def Json.isNull : Json → Bool
  | .null => true
  | _ => false

theorem Json.isNull_iff (j : Json) : j.isNull = true ↔ j = Json.null := by
  cases j <;> simp [Json.isNull]

/-- `BOLNA_API_URL = "https://api.bolna.ai/v2"` (main.py line 25). -/
def BOLNA_API_URL : String := "https://api.bolna.ai/v2"

/-- The fixed header set `HEADERS` (main.py lines 26-29), as a function of the
`BOLNA_API_KEY` environment value. -/
def HEADERS (apiKey : String) : List (String × String) :=
  [("Authorization", "Bearer " ++ apiKey), ("Content-Type", "application/json")]

/-- One HTTP request as issued by the `httpx` client: the verb actually used,
the target URL, the headers, the `timeout=30.0` value, and the JSON body
(`none` when no `json=` payload is sent, i.e. for GET/DELETE and when the
`data` argument is Python `None`). -/
structure HttpRequest where
  method : String
  url : String
  headers : List (String × String)
  timeout : Rat
  body : Option Json

/-- What the network does with an issued request: a completed response with a
status code and a JSON-decodable body, a completed response whose body is not
valid JSON, or a transport-level failure (timeout, DNS, connection refused,
...) in which the client call itself raises. -/
inductive UpstreamOutcome where
  | ok : Nat → Json → UpstreamOutcome
  | okBadBody : Nat → UpstreamOutcome
  | transportError : String → UpstreamOutcome

/-- The network oracle: the outcome of each possible request. -/
abbrev Upstream := HttpRequest → UpstreamOutcome

/-- The exceptions the `try` block of `make_bolna_request` can raise. -/
inductive PyExc where
  | httpStatusError : Nat → PyExc
  | jsonDecodeError : PyExc
  | transport : String → PyExc

/-- The message interpolated into the printed diagnostic (`f"... {e}"`). -/
def PyExc.text : PyExc → String
  | .httpStatusError s => "status " ++ toString s
  | .jsonDecodeError => "response body is not valid JSON"
  | .transport m => m

/-- Whether `except httpx.HTTPStatusError` (main.py line 53) catches the
exception. -/
def PyExc.isHTTPStatusError : PyExc → Bool
  | .httpStatusError _ => true
  | _ => false

/-- Whether `except Exception` (main.py line 55) catches the exception: every
exception the try block can raise (`httpx` transport errors,
`httpx.HTTPStatusError`, JSON decode errors) subclasses Python's `Exception`. -/
def PyExc.isException : PyExc → Bool
  | .httpStatusError _ => true
  | .jsonDecodeError => true
  | .transport _ => true

/-- `raise_for_status` does not raise exactly when the status is a 2xx
success. -/
def is2xx (s : Nat) : Bool := Nat.ble 200 s && Nat.blt s 300

/-- The verb branch of `make_bolna_request` (main.py lines 41-48): `POST`,
`PUT` and `DELETE` are dispatched by exact string comparison and everything
else falls through to the final `else` clause, which issues a GET. -/
def methodVerb (method : String) : String :=
  if method == "POST" then "POST"
  else if method == "PUT" then "PUT"
  else if method == "DELETE" then "DELETE"
  else "GET"

/-- The request `make_bolna_request` hands to `httpx`: the dispatched verb,
the caller's URL, the module-level `HEADERS`, `timeout=30.0`, and the `json=`
payload (present only on the POST/PUT branches, and only when `data` is not
Python `None`, since `httpx` sends no JSON body for `json=None`). -/
def buildRequest (apiKey url method : String) (data : Json) : HttpRequest :=
  let verb := methodVerb method
  { method := verb
    url := url
    headers := HEADERS apiKey
    timeout := 30
    body := if (verb == "POST" || verb == "PUT") && !data.isNull then some data else none }

/-- The body of the `try` block (main.py lines 41-51) given the outcome of the
issued request: a transport failure raises, `raise_for_status` raises
`HTTPStatusError` on a non-2xx status, and `response.json()` raises when the
body is not valid JSON; otherwise the decoded body is returned. -/
def tryBody : UpstreamOutcome → Except PyExc Json
  | .transportError m => Except.error (PyExc.transport m)
  | .ok s b => if is2xx s then Except.ok b else Except.error (PyExc.httpStatusError s)
  | .okBadBody s =>
      if is2xx s then Except.error PyExc.jsonDecodeError
      else Except.error (PyExc.httpStatusError s)

/-- The value a call to `make_bolna_request` (or a tool) evaluates to, with
its observable trace: `result` is the returned Python value (`Json.null` for
`None`), `logs` the printed diagnostic lines, `calls` the HTTP requests
issued. -/
structure RequestResult where
  result : Json
  logs : List String
  calls : List HttpRequest

/-- `make_bolna_request` (main.py lines 31-57).  It issues exactly one request
and runs the `try`/`except` chain on the outcome: `except
httpx.HTTPStatusError` prints `"HTTP error occurred: ..."`, the bare `except
Exception` prints `"An error occurred: ..."`, both fall through to `return
None`; an exception neither clause catches would propagate to the caller
(`Except.error`). -/
def make_bolna_request (upstream : Upstream) (apiKey : String) (url : String)
    (method : String := "GET") (data : Json := Json.null) :
    Except PyExc RequestResult :=
  let req : HttpRequest := buildRequest apiKey url method data
  match tryBody (upstream req) with
  | Except.ok j => Except.ok { result := j, logs := [], calls := [req] }
  | Except.error e =>
      if e.isHTTPStatusError then
        Except.ok { result := Json.null
                    logs := ["HTTP error occurred: " ++ e.text]
                    calls := [req] }
      else if e.isException then
        Except.ok { result := Json.null
                    logs := ["An error occurred: " ++ e.text]
                    calls := [req] }
      else
        Except.error e

/-- `get_required_agent_config` (main.py lines 59-107): the hard-coded default
agent configuration with the three caller strings inserted. -/
def get_required_agent_config
    (agent_name agent_type agent_welcome_message : String) : Json :=
  Json.obj [("agent_config", Json.obj [
    ("agent_name", Json.str agent_name),
    ("agent_type", Json.str agent_type),
    ("agent_welcome_message", Json.str agent_welcome_message),
    ("tasks", Json.arr [Json.obj [
      ("task_type", Json.str "conversation"),
      ("tools_config", Json.obj [
        ("llm_agent", Json.obj [
          ("agent_type", Json.str "simple_llm_agent"),
          ("agent_flow_type", Json.str "streaming"),
          ("routes", Json.obj [
            ("embedding_model", Json.str "snowflake/snowflake-arctic-embed-m"),
            ("routes", Json.arr [Json.obj [
              ("route_name", Json.str "general"),
              ("utterances", Json.arr [
                Json.str "How are you?",
                Json.str "What\x27s up?"]),
              ("response", Json.str "Hello! How can I assist you today?"),
              ("score_threshold", Json.num (0.9 : Rat))]])])])]),
      ("toolchain", Json.obj [
        ("execution", Json.str "parallel"),
        ("pipelines", Json.arr [Json.arr [Json.str "llm_agent"]])]),
      ("task_config", Json.obj [
        ("hangup_after_silence", Json.num 10),
        ("incremental_delay", Json.num 400),
        ("number_of_words_for_interruption", Json.num 2)])]])])]

/-- `create_agent` (main.py lines 109-123): builds the default config and
POSTs it to `{BOLNA_API_URL}/agent`. -/
def create_agent (upstream : Upstream) (apiKey : String)
    (agent_name agent_type agent_welcome_message : String) :
    Except PyExc RequestResult :=
  let agent_config := get_required_agent_config agent_name agent_type agent_welcome_message
  let url := BOLNA_API_URL ++ "/agent"
  make_bolna_request upstream apiKey url "POST" agent_config

/-- `get_agents` (main.py lines 135-139): GET `{BOLNA_API_URL}/agent/all`. -/
def get_agents (upstream : Upstream) (apiKey : String) : Except PyExc RequestResult :=
  let url := BOLNA_API_URL ++ "/agent/all"
  make_bolna_request upstream apiKey url

/-- `get_agent` (main.py lines 141-149): GET `{BOLNA_API_URL}/agent/{agent_id}`. -/
def get_agent (upstream : Upstream) (apiKey : String) (agent_id : String) :
    Except PyExc RequestResult :=
  let url := BOLNA_API_URL ++ "/agent/" ++ agent_id
  make_bolna_request upstream apiKey url

/-- `update_agent` (main.py lines 151-160): PUT the caller's `agent_config`
to `{BOLNA_API_URL}/agent/{agent_id}`. -/
def update_agent (upstream : Upstream) (apiKey : String) (agent_id : String)
    (agent_config : Json) : Except PyExc RequestResult :=
  let url := BOLNA_API_URL ++ "/agent/" ++ agent_id
  make_bolna_request upstream apiKey url "PUT" agent_config

/-- `delete_agent` (main.py lines 162-171): DELETE
`{BOLNA_API_URL}/agent/{agent_id}`, then
`return {"status": "deleted"} if response is None else response`. -/
def delete_agent (upstream : Upstream) (apiKey : String) (agent_id : String) :
    Except PyExc RequestResult :=
  let url := BOLNA_API_URL ++ "/agent/" ++ agent_id
  (make_bolna_request upstream apiKey url "DELETE").map fun r =>
    { r with result :=
        if r.result.isNull then Json.obj [("status", Json.str "deleted")]
        else r.result }

/-- `execute_agent` (main.py lines 173-182): POST the caller's
`execution_data` to `{BOLNA_API_URL}/executions/{agent_id}`. -/
def execute_agent (upstream : Upstream) (apiKey : String) (agent_id : String)
    (execution_data : Json) : Except PyExc RequestResult :=
  let url := BOLNA_API_URL ++ "/executions/" ++ agent_id
  make_bolna_request upstream apiKey url "POST" execution_data

/-- `get_execution_status` (main.py lines 184-192): GET
`{BOLNA_API_URL}/executions/status/{execution_id}`. -/
def get_execution_status (upstream : Upstream) (apiKey : String)
    (execution_id : String) : Except PyExc RequestResult :=
  let url := BOLNA_API_URL ++ "/executions/status/" ++ execution_id
  make_bolna_request upstream apiKey url

/-- The schema of one MCP tool as registered with `@mcp.tool()`: its name,
its parameters (name and JSON type, read off the Python signature), and its
human-readable description (the first line of the docstring). -/
structure ToolSpec where
  name : String
  params : List (String × String)
  description : String

/-- The tools registered on the `FastMCP` instance, in source order: one per
`@mcp.tool()` decoration in main.py (lines 109, 135, 141, 151, 162, 173,
184; the second `create_agent` at lines 125-133 is commented out and not
registered). -/
def registeredTools : List ToolSpec :=
  [{ name := "create_agent"
     params := [("agent_name", "string"), ("agent_type", "string"),
                ("agent_welcome_message", "string")]
     description := "Create a new voice AI agent with only the required fields." },
   { name := "get_agents"
     params := []
     description := "Retrieve all voice AI agents." },
   { name := "get_agent"
     params := [("agent_id", "string")]
     description := "Retrieve a specific voice AI agent by ID." },
   { name := "update_agent"
     params := [("agent_id", "string"), ("agent_config", "object")]
     description := "Update an existing voice AI agent." },
   { name := "delete_agent"
     params := [("agent_id", "string")]
     description := "Delete a voice AI agent." },
   { name := "execute_agent"
     params := [("agent_id", "string"), ("execution_data", "object")]
     description := "Execute a voice AI agent." },
   { name := "get_execution_status"
     params := [("execution_id", "string")]
     description := "Retrieve the status of a specific execution." }]

/-- Modelled from the spec: the initialization handshake sent on connect to
the stream endpoint. `handle_sse` (main.py lines 202-212) delegates the
handshake to the MCP framework (`mcp_server.create_initialization_options()`
and `mcp_server.run`, library code not in src); per the spec, on connect the
server "issues an initialization handshake advertising the ... tools (name,
parameter schema, human-readable description) from the Operation Catalog",
i.e. exactly the tools registered with `@mcp.tool()`. -/
def advertisedTools : List ToolSpec := registeredTools

/-- The default-config literal as the spec's words state it (§4.2 and claim
C5): one conversation task; a simple-LLM-agent tool configuration with one
intent route named "general" with two example utterances, the canned
response, and similarity threshold 0.9; parallel single-pipeline toolchain
execution; and task behavior parameters hangup_after_silence 10,
incremental_delay 400, number_of_words_for_interruption 2 — with the three
caller strings inserted in the named fields.  Written from the spec, to be
compared against `get_required_agent_config` (written from the source). -/
def specDefaultConfig
    (agent_name agent_type agent_welcome_message : String) : Json :=
  Json.obj [("agent_config", Json.obj [
    ("agent_name", Json.str agent_name),
    ("agent_type", Json.str agent_type),
    ("agent_welcome_message", Json.str agent_welcome_message),
    ("tasks", Json.arr [Json.obj [
      ("task_type", Json.str "conversation"),
      ("tools_config", Json.obj [
        ("llm_agent", Json.obj [
          ("agent_type", Json.str "simple_llm_agent"),
          ("agent_flow_type", Json.str "streaming"),
          ("routes", Json.obj [
            ("embedding_model", Json.str "snowflake/snowflake-arctic-embed-m"),
            ("routes", Json.arr [Json.obj [
              ("route_name", Json.str "general"),
              ("utterances", Json.arr [
                Json.str "How are you?",
                Json.str "What\x27s up?"]),
              ("response", Json.str "Hello! How can I assist you today?"),
              ("score_threshold", Json.num (0.9 : Rat))]])])])]),
      ("toolchain", Json.obj [
        ("execution", Json.str "parallel"),
        ("pipelines", Json.arr [Json.arr [Json.str "llm_agent"]])]),
      ("task_config", Json.obj [
        ("hangup_after_silence", Json.num 10),
        ("incremental_delay", Json.num 400),
        ("number_of_words_for_interruption", Json.num 2)])]])])]

/-- The value `make_bolna_request` returns for a given outcome of its one
issued request (its normal form, proved in `make_bolna_request_eq`). -/
def handleOutcome (o : UpstreamOutcome) (req : HttpRequest) : RequestResult :=
  match o with
  | .ok s b =>
      if is2xx s then { result := b, logs := [], calls := [req] }
      else { result := Json.null
             logs := ["HTTP error occurred: " ++ (PyExc.httpStatusError s).text]
             calls := [req] }
  | .okBadBody s =>
      if is2xx s then
        { result := Json.null
          logs := ["An error occurred: " ++ PyExc.jsonDecodeError.text]
          calls := [req] }
      else
        { result := Json.null
          logs := ["HTTP error occurred: " ++ (PyExc.httpStatusError s).text]
          calls := [req] }
  | .transportError m =>
      { result := Json.null
        logs := ["An error occurred: " ++ (PyExc.transport m).text]
        calls := [req] }

/-- `make_bolna_request` never propagates an exception: both `except` clauses
together catch everything the try block can raise, so the call always returns
normally, with the value described by `handleOutcome`. -/
theorem make_bolna_request_eq (upstream : Upstream) (apiKey url method : String)
    (data : Json) :
    make_bolna_request upstream apiKey url method data =
      Except.ok (handleOutcome (upstream (buildRequest apiKey url method data))
        (buildRequest apiKey url method data)) := by
  cases h : upstream (buildRequest apiKey url method data) with
  | ok s b =>
      by_cases h2 : is2xx s = true <;>
        simp [make_bolna_request, tryBody, handleOutcome, h, h2,
          PyExc.isHTTPStatusError, PyExc.isException]
  | okBadBody s =>
      by_cases h2 : is2xx s = true <;>
        simp [make_bolna_request, tryBody, handleOutcome, h, h2,
          PyExc.isHTTPStatusError, PyExc.isException]
  | transportError m =>
      simp [make_bolna_request, tryBody, handleOutcome, h,
        PyExc.isHTTPStatusError, PyExc.isException]

theorem handleOutcome_calls (o : UpstreamOutcome) (req : HttpRequest) :
    (handleOutcome o req).calls = [req] := by
  cases o <;> simp [handleOutcome] <;> split <;> rfl

/-- A failure outcome: the request raised in transit, the status was not 2xx,
or the 2xx body was not valid JSON. -/
def outcomeFails : UpstreamOutcome → Bool
  | .ok s _ => !is2xx s
  | .okBadBody _ => true
  | .transportError _ => true

theorem handleOutcome_fails (o : UpstreamOutcome) (req : HttpRequest)
    (h : outcomeFails o = true) :
    (handleOutcome o req).result = Json.null ∧ (handleOutcome o req).logs ≠ [] := by
  cases o with
  | ok s b =>
      simp only [outcomeFails, Bool.not_eq_true'] at h
      simp [handleOutcome, h]
  | okBadBody s =>
      by_cases h2 : is2xx s = true <;> simp [handleOutcome, h2]
  | transportError m => simp [handleOutcome]

theorem handleOutcome_success (s : Nat) (b : Json) (req : HttpRequest)
    (h : is2xx s = true) :
    handleOutcome (UpstreamOutcome.ok s b) req = { result := b, logs := [], calls := [req] } := by
  simp [handleOutcome, h]

/-- Specialization of `make_bolna_request_eq` to a stubbed upstream that
always answers 200 with body `B`. -/
theorem make_bolna_request_stub200 (upstream : Upstream) (B : Json)
    (apiKey url method : String) (data : Json)
    (hstub : ∀ req, upstream req = UpstreamOutcome.ok 200 B) :
    make_bolna_request upstream apiKey url method data =
      Except.ok { result := B, logs := []
                  calls := [buildRequest apiKey url method data] } := by
  rw [make_bolna_request_eq, hstub, handleOutcome_success _ _ _ (by decide)]

/-- The tool-layer transformation of `delete_agent` (main.py line 171),
`{"status": "deleted"} if response is None else response`, as a function on
the request result. -/
def coerceDeleted (r : RequestResult) : RequestResult :=
  { r with result :=
      if r.result.isNull then Json.obj [("status", Json.str "deleted")]
      else r.result }

theorem coerceDeleted_calls (r : RequestResult) : (coerceDeleted r).calls = r.calls := rfl

/-- Normal form of `delete_agent`: it returns normally, with the
`None`-to-`{"status": "deleted"}` coercion of what `make_bolna_request`
produced for the one DELETE request. -/
theorem delete_agent_eq (upstream : Upstream) (apiKey agent_id : String) :
    delete_agent upstream apiKey agent_id =
      Except.ok (coerceDeleted (handleOutcome
        (upstream (buildRequest apiKey (BOLNA_API_URL ++ "/agent/" ++ agent_id)
          "DELETE" Json.null))
        (buildRequest apiKey (BOLNA_API_URL ++ "/agent/" ++ agent_id)
          "DELETE" Json.null))) := by
  show (make_bolna_request upstream apiKey
      (BOLNA_API_URL ++ "/agent/" ++ agent_id) "DELETE" Json.null).map _ = _
  rw [make_bolna_request_eq]
  rfl

/-- C3: for every URL, method and body, `make_bolna_request` never lets an
exception escape (it always returns normally), and whenever the outcome of
the issued request is a failure — non-2xx status, transport-level error, or
an undecodable 2xx body — the returned value is `None` (absent, not a
structured error) and a diagnostic line is printed. -/
theorem make_bolna_request_never_raises (upstream : Upstream)
    (apiKey url method : String) (data : Json) :
    ∃ r, make_bolna_request upstream apiKey url method data = Except.ok r ∧
      (outcomeFails (upstream (buildRequest apiKey url method data)) = true →
        r.result = Json.null ∧ r.logs ≠ []) :=
  ⟨_, make_bolna_request_eq upstream apiKey url method data,
    fun hf => handleOutcome_fails _ _ hf⟩

/-- C3 witness: a concrete 500 response is absorbed — the call returns
normally with an absent result and a logged diagnostic. -/
theorem make_bolna_request_never_raises_witness :
    ∃ r, make_bolna_request (fun _ => UpstreamOutcome.ok 500 (Json.str "oops"))
        "key" "https://api.bolna.ai/v2/agent/all" "GET" Json.null = Except.ok r ∧
      (outcomeFails (UpstreamOutcome.ok 500 (Json.str "oops")) = true →
        r.result = Json.null ∧ r.logs ≠ []) :=
  make_bolna_request_never_raises (fun _ => UpstreamOutcome.ok 500 (Json.str "oops"))
    "key" "https://api.bolna.ai/v2/agent/all" "GET" Json.null

/-- C7: every request issued by `make_bolna_request` — hence every upstream
request of every tool — carries exactly the headers
`Authorization: Bearer <API_KEY>` and `Content-Type: application/json` and a
30-second timeout, whatever the URL, method and body. -/
theorem request_headers_and_timeout_fixed (upstream : Upstream)
    (apiKey url method : String) (data : Json) :
    ∃ r, make_bolna_request upstream apiKey url method data = Except.ok r ∧
      r.calls.map HttpRequest.headers =
        [[("Authorization", "Bearer " ++ apiKey),
          ("Content-Type", "application/json")]] ∧
      r.calls.map HttpRequest.timeout = [30] := by
  refine ⟨_, make_bolna_request_eq upstream apiKey url method data, ?_, ?_⟩ <;>
    rw [handleOutcome_calls] <;> rfl

/-- C10: `make_bolna_request` is total in its method argument: any method
string other than exactly "POST", "PUT" or "DELETE" (lowercase variants
included) falls through to the final `else` branch and issues a GET — there
is no invalid-method error path. -/
theorem unknown_method_falls_back_to_get (upstream : Upstream)
    (apiKey url m : String) (data : Json)
    (h1 : m ≠ "POST") (h2 : m ≠ "PUT") (h3 : m ≠ "DELETE") :
    ∃ r, make_bolna_request upstream apiKey url m data = Except.ok r ∧
      r.calls.map HttpRequest.method = ["GET"] := by
  refine ⟨_, make_bolna_request_eq upstream apiKey url m data, ?_⟩
  rw [handleOutcome_calls]
  simp [buildRequest, methodVerb, h1, h2, h3]

/-- C10 witness: the lowercase method "post" issues a GET request. -/
theorem unknown_method_falls_back_to_get_witness :
    ("post" : String) ≠ "POST" ∧
    ∃ r, make_bolna_request (fun _ => UpstreamOutcome.ok 200 Json.null)
        "key" "https://api.bolna.ai/v2/agent" "post" Json.null = Except.ok r ∧
      r.calls.map HttpRequest.method = ["GET"] :=
  ⟨by decide,
    unknown_method_falls_back_to_get (fun _ => UpstreamOutcome.ok 200 Json.null)
      "key" "https://api.bolna.ai/v2/agent" "post" Json.null
      (by decide) (by decide) (by decide)⟩

/-- C5: for every agent name, type and welcome message, the request body
`create_agent` sends upstream is exactly the fixed default-config literal of
the spec — one conversation task, a simple-LLM-agent config with one route
"general" (two utterances, the canned response, score_threshold 0.9),
parallel single-pipeline toolchain, hangup_after_silence 10,
incremental_delay 400 and number_of_words_for_interruption 2 — with the
three caller strings inserted in the named fields (`specDefaultConfig`). -/
theorem create_agent_sends_default_config (upstream : Upstream)
    (apiKey agent_name agent_type agent_welcome_message : String) :
    ∃ r, create_agent upstream apiKey agent_name agent_type agent_welcome_message
        = Except.ok r ∧
      r.calls.map HttpRequest.body =
        [some (specDefaultConfig agent_name agent_type agent_welcome_message)] := by
  refine ⟨_, make_bolna_request_eq upstream apiKey _ "POST" _, ?_⟩
  rw [handleOutcome_calls]
  rfl

/-- C6: for every caller-supplied JSON object, `update_agent` and
`execute_agent` send exactly that object upstream as the request body — no
fields added, removed or rewritten. -/
theorem update_execute_body_pass_through (upstream : Upstream)
    (apiKey agent_id : String) (kvs : List (String × Json)) :
    (∃ r, update_agent upstream apiKey agent_id (Json.obj kvs) = Except.ok r ∧
       r.calls.map HttpRequest.body = [some (Json.obj kvs)]) ∧
    (∃ r, execute_agent upstream apiKey agent_id (Json.obj kvs) = Except.ok r ∧
       r.calls.map HttpRequest.body = [some (Json.obj kvs)]) := by
  constructor <;>
    exact ⟨_, make_bolna_request_eq upstream apiKey _ _ _,
      by rw [handleOutcome_calls]; rfl⟩

/-- C1 counterexample: with a stubbed upstream answering HTTP 200 with the
JSON body `null`, `delete_agent`'s result is `{"status": "deleted"}`, not the
body `null` unchanged — `response.json()` decodes `null` to Python `None`,
which `delete_agent` cannot tell apart from a failed call. -/
theorem delete_agent_null_body_not_pass_through :
    ∃ r, delete_agent (fun _ => UpstreamOutcome.ok 200 Json.null) "key" "abc"
        = Except.ok r ∧
      r.result = Json.obj [("status", Json.str "deleted")] ∧
      r.result ≠ Json.null :=
  ⟨_, rfl, rfl, fun h => nomatch h⟩

/-- C1 (amended): with a stubbed upstream answering HTTP 200 with JSON body
`B`, every catalog tool's result is `B` unchanged — except `delete_agent`
when `B` is the JSON value `null`, which decodes to the same Python `None`
the client returns on failure, so `delete_agent` then reports
`{"status": "deleted"}` instead. -/
theorem tools_pass_through_on_200 (B : Json) (upstream : Upstream)
    (apiKey n t w agent_id execution_id : String) (config executionData : Json)
    (hstub : ∀ req, upstream req = UpstreamOutcome.ok 200 B) :
    (∃ r, create_agent upstream apiKey n t w = Except.ok r ∧ r.result = B) ∧
    (∃ r, get_agents upstream apiKey = Except.ok r ∧ r.result = B) ∧
    (∃ r, get_agent upstream apiKey agent_id = Except.ok r ∧ r.result = B) ∧
    (∃ r, update_agent upstream apiKey agent_id config = Except.ok r ∧
       r.result = B) ∧
    (∃ r, delete_agent upstream apiKey agent_id = Except.ok r ∧
       r.result = (if B.isNull then Json.obj [("status", Json.str "deleted")]
                   else B)) ∧
    (∃ r, execute_agent upstream apiKey agent_id executionData = Except.ok r ∧
       r.result = B) ∧
    (∃ r, get_execution_status upstream apiKey execution_id = Except.ok r ∧
       r.result = B) :=
  ⟨⟨_, make_bolna_request_stub200 upstream B apiKey _ _ _ hstub, rfl⟩,
   ⟨_, make_bolna_request_stub200 upstream B apiKey _ _ _ hstub, rfl⟩,
   ⟨_, make_bolna_request_stub200 upstream B apiKey _ _ _ hstub, rfl⟩,
   ⟨_, make_bolna_request_stub200 upstream B apiKey _ _ _ hstub, rfl⟩,
   ⟨_, by rw [delete_agent_eq, hstub, handleOutcome_success _ _ _ (by decide)],
      rfl⟩,
   ⟨_, make_bolna_request_stub200 upstream B apiKey _ _ _ hstub, rfl⟩,
   ⟨_, make_bolna_request_stub200 upstream B apiKey _ _ _ hstub, rfl⟩⟩

/-- C1 witness: the amended pass-through property at a concrete stub
(HTTP 200, body the JSON string "B") and concrete tool inputs. -/
theorem tools_pass_through_on_200_witness :
    (∃ r, create_agent (fun _ => UpstreamOutcome.ok 200 (Json.str "B"))
        "key" "n" "t" "w" = Except.ok r ∧ r.result = Json.str "B") ∧
    (∃ r, get_agents (fun _ => UpstreamOutcome.ok 200 (Json.str "B")) "key"
        = Except.ok r ∧ r.result = Json.str "B") ∧
    (∃ r, get_agent (fun _ => UpstreamOutcome.ok 200 (Json.str "B")) "key" "abc"
        = Except.ok r ∧ r.result = Json.str "B") ∧
    (∃ r, update_agent (fun _ => UpstreamOutcome.ok 200 (Json.str "B")) "key"
        "abc" (Json.obj []) = Except.ok r ∧ r.result = Json.str "B") ∧
    (∃ r, delete_agent (fun _ => UpstreamOutcome.ok 200 (Json.str "B")) "key"
        "abc" = Except.ok r ∧
       r.result = (if (Json.str "B").isNull
                   then Json.obj [("status", Json.str "deleted")]
                   else Json.str "B")) ∧
    (∃ r, execute_agent (fun _ => UpstreamOutcome.ok 200 (Json.str "B")) "key"
        "abc" (Json.obj []) = Except.ok r ∧ r.result = Json.str "B") ∧
    (∃ r, get_execution_status (fun _ => UpstreamOutcome.ok 200 (Json.str "B"))
        "key" "eid" = Except.ok r ∧ r.result = Json.str "B") :=
  tools_pass_through_on_200 (Json.str "B")
    (fun _ => UpstreamOutcome.ok 200 (Json.str "B"))
    "key" "n" "t" "w" "abc" "eid" (Json.obj []) (Json.obj [])
    (fun _ => rfl)

/-- C2: whatever `make_bolna_request` returns for the DELETE request,
`delete_agent` reports `{"status": "deleted"}` when that value is absent
(Python `None`), and reports the value unchanged otherwise. -/
theorem delete_agent_absent_coercion (upstream : Upstream)
    (apiKey agent_id : String) (r : RequestResult)
    (h : make_bolna_request upstream apiKey
        (BOLNA_API_URL ++ "/agent/" ++ agent_id) "DELETE" Json.null
        = Except.ok r) :
    ∃ d, delete_agent upstream apiKey agent_id = Except.ok d ∧
      (r.result = Json.null →
        d.result = Json.obj [("status", Json.str "deleted")]) ∧
      (r.result ≠ Json.null → d.result = r.result) := by
  have hd : delete_agent upstream apiKey agent_id = Except.ok (coerceDeleted r) := by
    show (make_bolna_request upstream apiKey
        (BOLNA_API_URL ++ "/agent/" ++ agent_id) "DELETE" Json.null).map _ = _
    rw [h]
    rfl
  refine ⟨coerceDeleted r, hd, ?_, ?_⟩
  · intro hnull
    simp [coerceDeleted, hnull, Json.isNull]
  · intro hne
    have hfalse : r.result.isNull = false := by
      rw [← Bool.not_eq_true, Json.isNull_iff]
      exact hne
    simp [coerceDeleted, hfalse]

/-- C2 witness: with an upstream timing out, the DELETE call returns absent
and `delete_agent` reports `{"status": "deleted"}`. -/
theorem delete_agent_absent_coercion_witness :
    ∃ d, delete_agent (fun _ => UpstreamOutcome.transportError "timed out")
        "key" "abc" = Except.ok d ∧
      (Json.null = Json.null →
        d.result = Json.obj [("status", Json.str "deleted")]) ∧
      (Json.null ≠ Json.null → d.result = Json.null) :=
  delete_agent_absent_coercion
    (fun _ => UpstreamOutcome.transportError "timed out") "key" "abc"
    { result := Json.null
      logs := ["An error occurred: timed out"]
      calls := [buildRequest "key" (BOLNA_API_URL ++ "/agent/" ++ "abc")
                  "DELETE" Json.null] }
    rfl

/-- C4 counterexample: the initialization metadata does not advertise exactly
6 tools — the source registers seven `@mcp.tool()` functions. -/
theorem advertised_tools_not_six : ¬ advertisedTools.length = 6 := by decide

/-- C4 (amended): on connect to the stream endpoint, the initialization
metadata advertises exactly 7 tools — the seven catalog operations registered
with `@mcp.tool()`, each with name, parameter schema and description. -/
theorem advertised_tools_are_the_seven_catalog_tools :
    advertisedTools.length = 7 ∧
    advertisedTools.map ToolSpec.name =
      ["create_agent", "get_agents", "get_agent", "update_agent",
       "delete_agent", "execute_agent", "get_execution_status"] :=
  ⟨rfl, rfl⟩

/-- C8: each catalog tool issues its one upstream call with exactly the verb
and URL template of the catalog table, under the fixed base URL
`https://api.bolna.ai/v2`, for every input and every upstream behavior. -/
theorem tool_verbs_and_urls (upstream : Upstream)
    (apiKey n t w agent_id execution_id : String) (config executionData : Json) :
    BOLNA_API_URL = "https://api.bolna.ai/v2" ∧
    (∃ r, create_agent upstream apiKey n t w = Except.ok r ∧
       r.calls.map (fun q => (q.method, q.url))
         = [("POST", BOLNA_API_URL ++ "/agent")]) ∧
    (∃ r, get_agents upstream apiKey = Except.ok r ∧
       r.calls.map (fun q => (q.method, q.url))
         = [("GET", BOLNA_API_URL ++ "/agent/all")]) ∧
    (∃ r, get_agent upstream apiKey agent_id = Except.ok r ∧
       r.calls.map (fun q => (q.method, q.url))
         = [("GET", BOLNA_API_URL ++ "/agent/" ++ agent_id)]) ∧
    (∃ r, update_agent upstream apiKey agent_id config = Except.ok r ∧
       r.calls.map (fun q => (q.method, q.url))
         = [("PUT", BOLNA_API_URL ++ "/agent/" ++ agent_id)]) ∧
    (∃ r, delete_agent upstream apiKey agent_id = Except.ok r ∧
       r.calls.map (fun q => (q.method, q.url))
         = [("DELETE", BOLNA_API_URL ++ "/agent/" ++ agent_id)]) ∧
    (∃ r, execute_agent upstream apiKey agent_id executionData = Except.ok r ∧
       r.calls.map (fun q => (q.method, q.url))
         = [("POST", BOLNA_API_URL ++ "/executions/" ++ agent_id)]) ∧
    (∃ r, get_execution_status upstream apiKey execution_id = Except.ok r ∧
       r.calls.map (fun q => (q.method, q.url))
         = [("GET", BOLNA_API_URL ++ "/executions/status/" ++ execution_id)]) :=
  ⟨rfl,
   ⟨_, make_bolna_request_eq upstream apiKey _ _ _,
     by rw [handleOutcome_calls]; rfl⟩,
   ⟨_, make_bolna_request_eq upstream apiKey _ _ _,
     by rw [handleOutcome_calls]; rfl⟩,
   ⟨_, make_bolna_request_eq upstream apiKey _ _ _,
     by rw [handleOutcome_calls]; rfl⟩,
   ⟨_, make_bolna_request_eq upstream apiKey _ _ _,
     by rw [handleOutcome_calls]; rfl⟩,
   ⟨_, delete_agent_eq upstream apiKey agent_id,
     by rw [coerceDeleted_calls, handleOutcome_calls]; rfl⟩,
   ⟨_, make_bolna_request_eq upstream apiKey _ _ _,
     by rw [handleOutcome_calls]; rfl⟩,
   ⟨_, make_bolna_request_eq upstream apiKey _ _ _,
     by rw [handleOutcome_calls]; rfl⟩⟩

/-- C9: every invocation of every catalog tool issues exactly one upstream
HTTP request, whatever the inputs and whatever the upstream does — no
caching, batching, retries or deduplication. -/
theorem one_upstream_call_per_invocation (upstream : Upstream)
    (apiKey n t w agent_id execution_id : String) (config executionData : Json) :
    (∃ r, create_agent upstream apiKey n t w = Except.ok r ∧
       r.calls.length = 1) ∧
    (∃ r, get_agents upstream apiKey = Except.ok r ∧ r.calls.length = 1) ∧
    (∃ r, get_agent upstream apiKey agent_id = Except.ok r ∧
       r.calls.length = 1) ∧
    (∃ r, update_agent upstream apiKey agent_id config = Except.ok r ∧
       r.calls.length = 1) ∧
    (∃ r, delete_agent upstream apiKey agent_id = Except.ok r ∧
       r.calls.length = 1) ∧
    (∃ r, execute_agent upstream apiKey agent_id executionData = Except.ok r ∧
       r.calls.length = 1) ∧
    (∃ r, get_execution_status upstream apiKey execution_id = Except.ok r ∧
       r.calls.length = 1) :=
  ⟨⟨_, make_bolna_request_eq upstream apiKey _ _ _,
     by rw [handleOutcome_calls]; rfl⟩,
   ⟨_, make_bolna_request_eq upstream apiKey _ _ _,
     by rw [handleOutcome_calls]; rfl⟩,
   ⟨_, make_bolna_request_eq upstream apiKey _ _ _,
     by rw [handleOutcome_calls]; rfl⟩,
   ⟨_, make_bolna_request_eq upstream apiKey _ _ _,
     by rw [handleOutcome_calls]; rfl⟩,
   ⟨_, delete_agent_eq upstream apiKey agent_id,
     by rw [coerceDeleted_calls, handleOutcome_calls]; rfl⟩,
   ⟨_, make_bolna_request_eq upstream apiKey _ _ _,
     by rw [handleOutcome_calls]; rfl⟩,
   ⟨_, make_bolna_request_eq upstream apiKey _ _ _,
     by rw [handleOutcome_calls]; rfl⟩⟩

end Bolna
